import Mathlib

/-!
Shallow embedding of the philucku-auth-server account lifecycle and
credential logic, translated from `src/routes/auth.js`, `src/routes/admin.js`
and the spec (for the model files and the balance route that are not under
`src/`).  All definitions are executable; theorems settle the frozen claims.
-/

/-- Account status, per the User schema (`models/User.js` is not under `src/`;
the enum \x7bpending, approved, rejected\x7d is taken from spec §3 and the README
schema, which both list exactly these three values). -/
inductive UserStatus
  | pending
  | approved
  | rejected
  deriving DecidableEq, Repr

/-- Serialization of a status into the string carried in JSON responses. -/
def statusString : UserStatus → String
  | UserStatus.pending => "pending"
  | UserStatus.approved => "approved"
  | UserStatus.rejected => "rejected"

/-- A persisted user account (fields per the README schema and spec §3;
`models/User.js` is not under `src/`).  `password` stands for the stored
salted hash. -/
structure User where
  id : String
  phone : String
  email : Option String
  password : String
  username : String
  balance : Rat
  status : UserStatus
  isActive : Bool
  lastLogin : Option Nat
  deriving DecidableEq, Repr

/-- The persisted user collection. -/
structure Store where
  users : List User
  deriving DecidableEq, Repr

/-- Modelled from the spec: `models/User.js` (with its bcrypt
`comparePassword` method) is not under `src/`.  Spec §4.1: `verifyPassword`
compares the plaintext against the stored salted hash; since bcrypt
verification succeeds exactly on the original plaintext, it is modelled as
equality with the stored secret. -/
def comparePassword (u : User) (pw : String) : Bool :=
  u.password == pw

/-- Lower-casing, as applied to emails (`email.toLowerCase()` in auth.js). -/
def lowerString (s : String) : String :=
  ⟨s.data.map Char.toLower⟩

/-- `identifier.includes('@')` from auth.js line 183: an identifier is
treated as an email exactly when it contains an at sign. -/
def isEmailIdentifier (identifier : String) : Bool :=
  identifier.data.contains '@'

/-- `User.findOne(query)` from auth.js lines 186-192: look up by
lower-cased email when the identifier contains an at sign, else by phone. -/
def findUserByIdentifier (st : Store) (identifier : String) : Option User :=
  if isEmailIdentifier identifier then
    st.users.find? (fun u => u.email == some (lowerString identifier))
  else
    st.users.find? (fun u => u.phone == identifier)

/-- Replace the persisted record with the same id (models `user.save()`). -/
def updateUser (st : Store) (u : User) : Store :=
  ⟨st.users.map (fun x => if x.id == u.id then u else x)⟩

/-- `jwt.sign(\x7bid\x7d, secret)` from auth.js lines 9-13, modelled as an
injective tagging of the subject id (the jsonwebtoken library is external). -/
def generateToken (subjectId : String) : String :=
  "jwt:" ++ subjectId

/-- A key/value settings record (`models/Settings.js`, unnamed part 001). -/
structure Setting where
  key : String
  value : String
  deriving DecidableEq, Repr

/-- Process environment slots read by `getWebViewUrl` (auth.js 16-39). -/
structure Env where
  webviewUrl : Option String
  port : Option String
  deriving DecidableEq, Repr

/-- `getWebViewUrl` from auth.js lines 16-39: persisted setting (if its value
is truthy), else the WEBVIEW_URL environment variable (if truthy), else a
URL computed from the port. -/
def getWebViewUrl (settings : List Setting) (env : Env) : String :=
  let fallbackUrl :=
    match env.webviewUrl with
    | some u => if u ≠ "" then u else
        "http://localhost:" ++ (env.port.getD "3332") ++ "/app-guide"
    | none => "http://localhost:" ++ (env.port.getD "3332") ++ "/app-guide"
  match settings.find? (fun s => s.key == "webViewUrl") with
  | some s => if s.value ≠ "" then s.value else fallbackUrl
  | none => fallbackUrl

/-- The user summary nested in a successful login response
(auth.js lines 170-177 and 257-264). -/
structure LoginUserView where
  id : String
  phone : String
  username : String
  email : Option String
  balance : Rat
  status : String
  deriving DecidableEq, Repr

/-- The JSON body (plus HTTP status code) of a login response; absent JSON
fields are `none`. -/
structure LoginResponse where
  statusCode : Nat
  success : Bool
  message : String
  isDemo : Option Bool
  showGames : Option Bool
  statusTag : Option String
  token : Option String
  user : Option LoginUserView
  webViewUrl : Option String
  deriving DecidableEq, Repr

/-- Validation failure for a missing identifier (auth.js 142, 146-153). -/
def identifierRequiredResp : LoginResponse :=
  ⟨400, false, "Phone number or email is required", none, none, none, none, none, none⟩

/-- Validation failure for a missing password (auth.js 143, 146-153). -/
def passwordRequiredResp : LoginResponse :=
  ⟨400, false, "Password is required", none, none, none, none, none, none⟩

/-- The uniform invalid-credentials response (auth.js 196-199 and 205-208:
both branches build the identical body). -/
def invalidCredsResp : LoginResponse :=
  ⟨401, false, "Invalid credentials", none, none, none, none, none, none⟩

/-- The pending-approval gate response (auth.js 212-219). -/
def pendingResp : LoginResponse :=
  ⟨403, false, "Your account is pending approval. Please wait for admin approval.",
    none, none, some "pending", none, none, none⟩

/-- The rejected gate response (auth.js 221-228). -/
def rejectedResp : LoginResponse :=
  ⟨403, false, "Your account has been rejected. Please contact support.",
    none, none, some "rejected", none, none, none⟩

/-- The deactivated gate response (auth.js 230-236). -/
def deactivatedResp : LoginResponse :=
  ⟨403, false, "Your account has been deactivated. Please contact support.",
    none, none, none, none, none, none⟩

/-- The synthetic demo login response (auth.js 160-180): fixed token subject,
fixed summary, no webViewUrl field. -/
def demoLoginResp : LoginResponse :=
  ⟨200, true, "Login successful", some true, some true, none,
    some (generateToken "demo-user-id"),
    some ⟨"demo-user-id", "1231237777", "Demo User", some "demo@philucky.com",
      (1250 : Rat), "demo"⟩,
    none⟩

/-- A normal successful login response for account `u` (auth.js 250-268). -/
def successLoginResp (settings : List Setting) (env : Env) (u : User) : LoginResponse :=
  ⟨200, true, "Login successful", some false, some false, none,
    some (generateToken u.id),
    some ⟨u.id, u.phone, u.username, u.email, u.balance, statusString u.status⟩,
    some (getWebViewUrl settings env)⟩

/-- The demo credential test from auth.js line 160: identifier is the demo
phone or the demo email, and the password is the demo password. -/
def isDemoPair (identifier password : String) : Bool :=
  (identifier == "1231237777" || identifier == "demo@philucky.com")
    && password == "Qqqwww888"

/-- The post-lookup part of login (auth.js 202-268): password check, then the
status gates in order pending, rejected, inactive, then success with
`lastLogin` update. -/
def gateUser (now : Nat) (st : Store) (settings : List Setting) (env : Env)
    (password : String) (u : User) : LoginResponse × Store :=
  if comparePassword u password = true then
    if u.status = UserStatus.pending then (pendingResp, st)
    else if u.status = UserStatus.rejected then (rejectedResp, st)
    else if u.isActive = false then (deactivatedResp, st)
    else (successLoginResp settings env u,
          updateUser st { u with lastLogin := some now })
  else (invalidCredsResp, st)

/-- `POST /api/auth/login` (auth.js lines 141-277): validation, then the demo
bypass, then store lookup, password check and status gates.  Returns the
response together with the resulting store. -/
def login (now : Nat) (st : Store) (settings : List Setting) (env : Env)
    (identifier password : String) : LoginResponse × Store :=
  if identifier = "" then (identifierRequiredResp, st)
  else if password = "" then (passwordRequiredResp, st)
  else if isDemoPair identifier password = true then (demoLoginResp, st)
  else
    match findUserByIdentifier st identifier with
    | none => (invalidCredsResp, st)
    | some u => gateUser now st settings env password u

/-- The signup request body (auth.js lines 44-61); absent fields are `""` or
`none`, matching how the express validators treat missing values. -/
structure SignupReq where
  phone : String
  email : Option String
  password : String
  username : Option String
  deriving DecidableEq, Repr

/-- The data object of a successful signup response (auth.js 101-107). -/
structure SignupData where
  userId : String
  phone : String
  email : Option String
  username : String
  status : String
  deriving DecidableEq, Repr

/-- The JSON body (plus HTTP status code) of a signup response. -/
structure SignupResponse where
  statusCode : Nat
  success : Bool
  message : String
  data : Option SignupData
  deriving DecidableEq, Repr

/-- Modelled from the spec: the email-format validator (`isEmail`) comes from
the external express-validator library, not from this repository; spec §2
and the glossary characterize emails by the presence of an at sign, so the
format check is modelled as containing one. -/
def isEmailFormat (s : String) : Bool :=
  s.data.contains '@'

/-- The optional-email validator outcome: a supplied email that fails the
format check (auth.js line 47); a missing email never fails. -/
def emailFormatFails (email : Option String) : Bool :=
  match email with
  | some e => !(isEmailFormat e)
  | none => false

/-- The duplicate-email lookup (auth.js 76-85): only performed when an email
was supplied, and against the lower-cased value. -/
def emailDupExists (st : Store) (email : Option String) : Bool :=
  match email with
  | some e => (st.users.find? (fun u => u.email == some (lowerString e))).isSome
  | none => false

/-- Duplicate-phone failure (auth.js 67-73). -/
def phoneDupResp : SignupResponse :=
  ⟨400, false, "Phone number already registered", none⟩

/-- Duplicate-email failure (auth.js 76-85). -/
def emailDupResp : SignupResponse :=
  ⟨400, false, "Email already registered", none⟩

/-- `POST /api/auth/signup` (auth.js lines 44-136): validation in declared
order, duplicate-phone check, duplicate-email check, then creation of a
`pending` account.  `freshId` stands for the store-generated object id.
Creation defaults (`isActive := true`, `balance := 0`) follow the README
schema and spec §3, the User model file being absent from `src/`. -/
def signup (st : Store) (freshId : String) (req : SignupReq) :
    SignupResponse × Store :=
  if req.phone = "" then
    (⟨400, false, "Phone number is required", none⟩, st)
  else if req.password.length < 6 then
    (⟨400, false, "Password must be at least 6 characters", none⟩, st)
  else if emailFormatFails req.email = true then
    (⟨400, false, "Invalid email format", none⟩, st)
  else if (st.users.find? (fun u => u.phone == req.phone)).isSome = true then
    (phoneDupResp, st)
  else if emailDupExists st req.email = true then
    (emailDupResp, st)
  else
    let newUser : User :=
      { id := freshId
        phone := req.phone
        email := req.email.map lowerString
        password := req.password
        username :=
          match req.username with
          | some un => if un = "" then req.phone else un
          | none => req.phone
        balance := 0
        status := UserStatus.pending
        isActive := true
        lastLogin := none }
    (⟨201, true, "Registration successful! Your account is pending approval.",
       some ⟨freshId, newUser.phone, newUser.email, newUser.username,
         statusString newUser.status⟩⟩,
     ⟨st.users ++ [newUser]⟩)

/-- Admin role, per `role ∈ \x7badmin, super_admin\x7d` (spec §3; seedAdmin.js
creates a `super_admin`; the Admin model file is absent from `src/`). -/
inductive AdminRole
  | admin
  | super_admin
  deriving DecidableEq, Repr

/-- A persisted admin principal (spec §3; `models/Admin.js` absent from
`src/`). -/
structure Admin where
  id : String
  username : String
  email : String
  password : String
  role : AdminRole
  isActive : Bool
  deriving DecidableEq, Repr

/-- The payload a successfully verified admin token decodes to
(admin.js line 11: `\x7bid, isAdmin\x7d`). -/
structure TokenPayload where
  id : String
  isAdmin : Bool
  deriving DecidableEq, Repr

/-- Outcome of `jwt.verify` on the bearer token (the jsonwebtoken library is
external): `invalid` when verification throws (bad signature or expired),
`ok payload` when it returns the decoded claims. -/
inductive TokenVerification
  | invalid
  | ok (payload : TokenPayload)
  deriving DecidableEq, Repr

/-- Outcome of the `verifyAdminToken` middleware: an error response or the
authorized admin record attached to the request. -/
inductive AuthOutcome
  | err (statusCode : Nat) (message : String)
  | authorized (a : Admin)
  deriving DecidableEq, Repr

/-- `verifyAdminToken` middleware (admin.js lines 17-58): missing token or a
token on which `jwt.verify` throws yields 401; a decoded payload without the
`isAdmin` flag yields 403; then the referenced admin record must exist and be
active, else 401. -/
def verifyAdminToken (admins : List Admin) (tok : Option TokenVerification) :
    AuthOutcome :=
  match tok with
  | none => AuthOutcome.err 401 "Not authorized to access this route"
  | some TokenVerification.invalid =>
      AuthOutcome.err 401 "Not authorized to access this route"
  | some (TokenVerification.ok p) =>
      if p.isAdmin = false then AuthOutcome.err 403 "Not authorized as admin"
      else
        match admins.find? (fun a => a.id == p.id) with
        | none => AuthOutcome.err 401 "Admin account not found or inactive"
        | some a =>
            if a.isActive = false then
              AuthOutcome.err 401 "Admin account not found or inactive"
            else AuthOutcome.authorized a

/-- Result body (plus HTTP status code) of an admin mutation endpoint. -/
structure AdminResult where
  statusCode : Nat
  success : Bool
  message : String
  deriving DecidableEq, Repr

/-- Composition of the middleware with a route handler: the handler (and the
user store) is reached only when `verifyAdminToken` authorizes the caller. -/
def withAdminAuth (admins : List Admin) (tok : Option TokenVerification)
    (handler : Admin → Store → AdminResult × Store) (st : Store) :
    AdminResult × Store :=
  match verifyAdminToken admins tok with
  | AuthOutcome.err c m => (⟨c, false, m⟩, st)
  | AuthOutcome.authorized a => handler a st

/-- The not-found failure shared by the user-mutation endpoints. -/
def userNotFoundResp : AdminResult :=
  ⟨404, false, "User not found"⟩

/-- `PUT /api/admin/users/:userId/approve` handler body (admin.js lines
210-248): look up by id, set `status` to approved, save.  The route reads no
request body and touches no other field. -/
def approveUser (st : Store) (userId : String) : AdminResult × Store :=
  match st.users.find? (fun u => u.id == userId) with
  | none => (userNotFoundResp, st)
  | some u =>
      (⟨200, true, "User approved successfully"⟩,
       updateUser st { u with status := UserStatus.approved })

/-- `DELETE /api/admin/users/:userId` handler body (admin.js lines 340-374):
the super-admin role check comes first; only then is the record removed. -/
def deleteUser (a : Admin) (st : Store) (userId : String) :
    AdminResult × Store :=
  if a.role ≠ AdminRole.super_admin then
    (⟨403, false, "Only super admins can delete users"⟩, st)
  else
    match st.users.find? (fun u => u.id == userId) with
    | none => (userNotFoundResp, st)
    | some _ =>
        (⟨200, true, "User deleted successfully"⟩,
         ⟨st.users.eraseP (fun u => u.id == userId)⟩)

/-- A JSON request-body value, as far as the balance endpoint inspects it. -/
inductive ReqValue
  | num (q : Rat)
  | str (s : String)
  deriving DecidableEq, Repr

/-- Modelled from the spec: the balance route
(`PUT /api/admin/users/:userId/balance`) is listed by `server.js` and
documented in the README, but the route file implementing it is not under
`src/`.  Spec §4.3: `setBalance(accountId, amount)` fails with
`InvalidAmount` if the amount is absent or non-numeric, otherwise overwrites
the balance unconditionally; unknown id fails with `NotFound`. -/
def setBalance (st : Store) (userId : String) (amount : Option ReqValue) :
    AdminResult × Store :=
  match amount with
  | some (ReqValue.num q) =>
      (match st.users.find? (fun u => u.id == userId) with
       | none => (userNotFoundResp, st)
       | some u =>
           (⟨200, true, "Balance updated successfully"⟩,
            updateUser st { u with balance := q }))
  | _ => (⟨400, false, "Invalid amount"⟩, st)

/-- Claim C4 (confirmed): for every store state (and settings, environment
and clock), a login with the hardcoded demo identifier (phone or email form)
and demo password returns the fixed synthetic demo response — so it is
decided before and independently of any account lookup, no persisted account
can alter it — leaves the store unchanged (nothing is persisted), succeeds
with 200, and is marked demo via `isDemo = true`, with the synthetic
non-persisted summary. -/
theorem c4_demo_bypass (now : Nat) (st : Store) (settings : List Setting)
    (env : Env) :
    login now st settings env "1231237777" "Qqqwww888" = (demoLoginResp, st) ∧
    login now st settings env "demo@philucky.com" "Qqqwww888" = (demoLoginResp, st) ∧
    demoLoginResp.success = true ∧
    demoLoginResp.statusCode = 200 ∧
    demoLoginResp.isDemo = some true ∧
    demoLoginResp.user = some ⟨"demo-user-id", "1231237777", "Demo User",
      some "demo@philucky.com", (1250 : Rat), "demo"⟩ := by
  exact ⟨rfl, rfl, rfl, rfl, rfl, rfl⟩

/-- Claim C1, counterexample: the claim as stated fails when a persisted
account carries the demo credentials.  A pending account with phone
`1231237777` and the demo password is found by the lookup and its password
matches, yet login with those credentials succeeds (HTTP 200) through the
demo bypass instead of returning the claimed PendingApproval 403. -/
theorem c1_counterexample :
    (findUserByIdentifier
        ⟨[⟨"u1", "1231237777", none, "Qqqwww888", "shadow", 0,
           UserStatus.pending, true, none⟩]⟩ "1231237777" =
      some ⟨"u1", "1231237777", none, "Qqqwww888", "shadow", 0,
        UserStatus.pending, true, none⟩) ∧
    comparePassword
      ⟨"u1", "1231237777", none, "Qqqwww888", "shadow", 0,
        UserStatus.pending, true, none⟩ "Qqqwww888" = true ∧
    (login 0
        ⟨[⟨"u1", "1231237777", none, "Qqqwww888", "shadow", 0,
           UserStatus.pending, true, none⟩]⟩ [] ⟨none, none⟩
        "1231237777" "Qqqwww888").1.success = true ∧
    (login 0
        ⟨[⟨"u1", "1231237777", none, "Qqqwww888", "shadow", 0,
           UserStatus.pending, true, none⟩]⟩ [] ⟨none, none⟩
        "1231237777" "Qqqwww888").1.statusCode = 200 := by
  decide

/-- Claim C1 (amended): provided the submitted identifier/password pair is
not the hardcoded demo pair, for every persisted account resolved by the
login lookup whose password matches, login succeeds iff `status = approved`
and `isActive = true`; otherwise the matching distinct 403 error is returned,
checked in the order pending → PendingApproval, rejected → Rejected,
inactive → Deactivated. -/
theorem c1_login_gating (now : Nat) (st : Store) (settings : List Setting)
    (env : Env) (identifier password : String) (u : User)
    (hid : identifier ≠ "") (hpwne : password ≠ "")
    (hdemo : isDemoPair identifier password = false)
    (hfind : findUserByIdentifier st identifier = some u)
    (hpw : comparePassword u password = true) :
    ((login now st settings env identifier password).1.success = true ↔
      (u.status = UserStatus.approved ∧ u.isActive = true)) ∧
    (u.status = UserStatus.pending →
      login now st settings env identifier password = (pendingResp, st)) ∧
    (u.status = UserStatus.rejected →
      login now st settings env identifier password = (rejectedResp, st)) ∧
    (u.status = UserStatus.approved → u.isActive = false →
      login now st settings env identifier password = (deactivatedResp, st)) ∧
    (u.status = UserStatus.approved → u.isActive = true →
      login now st settings env identifier password =
        (successLoginResp settings env u,
         updateUser st { u with lastLogin := some now })) ∧
    pendingResp.statusCode = 403 ∧
    rejectedResp.statusCode = 403 ∧
    deactivatedResp.statusCode = 403 ∧
    (successLoginResp settings env u).statusCode = 200 := by
  have hlogin : login now st settings env identifier password =
      gateUser now st settings env password u := by
    unfold login
    rw [if_neg hid, if_neg hpwne, if_neg (by simp [hdemo]), hfind]
  rw [hlogin]
  unfold gateUser
  rw [if_pos hpw]
  cases hst : u.status <;> cases hact : u.isActive <;>
    simp [pendingResp, rejectedResp, deactivatedResp, successLoginResp]

/-- Claim C1, witness: a concrete pending account with a matching password
is refused with the PendingApproval response. -/
theorem c1_login_gating_witness :
    login 0 ⟨[⟨"u1", "555", none, "abcdef", "n", 0,
        UserStatus.pending, true, none⟩]⟩ [] ⟨none, none⟩ "555" "abcdef" =
      (pendingResp,
       ⟨[⟨"u1", "555", none, "abcdef", "n", 0,
          UserStatus.pending, true, none⟩]⟩) := by
  exact (c1_login_gating 0
    ⟨[⟨"u1", "555", none, "abcdef", "n", 0, UserStatus.pending, true, none⟩]⟩
    [] ⟨none, none⟩ "555" "abcdef"
    ⟨"u1", "555", none, "abcdef", "n", 0, UserStatus.pending, true, none⟩
    (by decide) (by decide) (by decide) (by decide) (by decide)).2.1 rfl

/-- Claim C3 (confirmed): a validated, non-demo login attempt whose
identifier resolves to no account and a validated, non-demo attempt whose
identifier resolves to an account but whose password mismatches return the
same response: HTTP 401 with the uniform invalid-credentials body. -/
theorem c3_enumeration_resistance
    (now1 now2 : Nat) (st1 st2 : Store)
    (settings1 settings2 : List Setting) (env1 env2 : Env)
    (id1 pw1 id2 pw2 : String) (u : User)
    (h1 : id1 ≠ "") (h2 : pw1 ≠ "") (h3 : id2 ≠ "") (h4 : pw2 ≠ "")
    (hd1 : isDemoPair id1 pw1 = false) (hd2 : isDemoPair id2 pw2 = false)
    (hnf : findUserByIdentifier st1 id1 = none)
    (hf : findUserByIdentifier st2 id2 = some u)
    (hpw : comparePassword u pw2 = false) :
    (login now1 st1 settings1 env1 id1 pw1).1 =
      (login now2 st2 settings2 env2 id2 pw2).1 ∧
    (login now1 st1 settings1 env1 id1 pw1).1 = invalidCredsResp ∧
    invalidCredsResp.statusCode = 401 := by
  have e1 : login now1 st1 settings1 env1 id1 pw1 = (invalidCredsResp, st1) := by
    unfold login
    rw [if_neg h1, if_neg h2, if_neg (by simp [hd1]), hnf]
  have e2 : login now2 st2 settings2 env2 id2 pw2 = (invalidCredsResp, st2) := by
    unfold login
    rw [if_neg h3, if_neg h4, if_neg (by simp [hd2]), hf]
    show gateUser now2 st2 settings2 env2 pw2 u = (invalidCredsResp, st2)
    unfold gateUser
    rw [if_neg (by simp [hpw])]
  rw [e1, e2]
  exact ⟨rfl, rfl, rfl⟩

/-- Claim C3, witness: with one concrete store, an unknown identifier and a
known identifier with a wrong password yield the identical 401 response. -/
theorem c3_enumeration_resistance_witness :
    (login 0 ⟨[⟨"u1", "555", none, "abcdef", "n", 0,
        UserStatus.approved, true, none⟩]⟩ [] ⟨none, none⟩ "777" "zzzzzz").1 =
      (login 0 ⟨[⟨"u1", "555", none, "abcdef", "n", 0,
        UserStatus.approved, true, none⟩]⟩ [] ⟨none, none⟩ "555" "wrongpw").1 := by
  exact (c3_enumeration_resistance 0 0
    ⟨[⟨"u1", "555", none, "abcdef", "n", 0, UserStatus.approved, true, none⟩]⟩
    ⟨[⟨"u1", "555", none, "abcdef", "n", 0, UserStatus.approved, true, none⟩]⟩
    [] [] ⟨none, none⟩ ⟨none, none⟩ "777" "zzzzzz" "555" "wrongpw"
    ⟨"u1", "555", none, "abcdef", "n", 0, UserStatus.approved, true, none⟩
    (by decide) (by decide) (by decide) (by decide) (by decide) (by decide)
    (by decide) (by decide) (by decide)).1

/-- Claim C2, counterexample: the claim as stated fails because the approve
route only sets `status`.  Approving a deactivated account returns 200 but
leaves `isActive = false` (the claim requires `isActive = true` afterwards),
and leaves the balance untouched. -/
theorem c2_counterexample :
    (approveUser ⟨[⟨"u1", "p1", none, "secret", "n", 5,
        UserStatus.pending, false, none⟩]⟩ "u1").1.statusCode = 200 ∧
    ((approveUser ⟨[⟨"u1", "p1", none, "secret", "n", 5,
        UserStatus.pending, false, none⟩]⟩ "u1").2.users.map
      (fun x => x.status)) = [UserStatus.approved] ∧
    ((approveUser ⟨[⟨"u1", "p1", none, "secret", "n", 5,
        UserStatus.pending, false, none⟩]⟩ "u1").2.users.map
      (fun x => x.isActive)) = [false] ∧
    ((approveUser ⟨[⟨"u1", "p1", none, "secret", "n", 5,
        UserStatus.pending, false, none⟩]⟩ "u1").2.users.map
      (fun x => x.balance)) = [(5 : Rat)] := by
  decide

/-- Claim C2 (amended): for every existing account id, the admin approve
operation sets `status = approved` and nothing else — `isActive` and
`balance` are left unchanged (the route reads no request body, so no initial
balance can be supplied); for an unknown id it fails with NotFound (404). -/
theorem c2_approve (st : Store) (userId : String) :
    (st.users.find? (fun x => x.id == userId) = none →
      approveUser st userId = (userNotFoundResp, st) ∧
      userNotFoundResp.statusCode = 404) ∧
    (∀ u, st.users.find? (fun x => x.id == userId) = some u →
      (approveUser st userId).1 = ⟨200, true, "User approved successfully"⟩ ∧
      (approveUser st userId).2 =
        updateUser st { u with status := UserStatus.approved } ∧
      ({ u with status := UserStatus.approved } : User).isActive = u.isActive ∧
      ({ u with status := UserStatus.approved } : User).balance = u.balance) := by
  constructor
  · intro h
    unfold approveUser
    rw [h]
    exact ⟨rfl, rfl⟩
  · intro u hu
    unfold approveUser
    rw [hu]
    exact ⟨rfl, rfl, rfl, rfl⟩

/-- Claim C2, witness: approving a concrete pending account yields 200 and
an approved record; an unknown id yields 404. -/
theorem c2_approve_witness :
    (approveUser ⟨[⟨"u1", "p1", none, "secret", "n", 0,
        UserStatus.pending, true, none⟩]⟩ "u1").1 =
      ⟨200, true, "User approved successfully"⟩ ∧
    approveUser ⟨[⟨"u1", "p1", none, "secret", "n", 0,
        UserStatus.pending, true, none⟩]⟩ "zz" =
      (userNotFoundResp,
       ⟨[⟨"u1", "p1", none, "secret", "n", 0,
          UserStatus.pending, true, none⟩]⟩) := by
  refine ⟨((c2_approve ⟨[⟨"u1", "p1", none, "secret", "n", 0,
      UserStatus.pending, true, none⟩]⟩ "u1").2
      ⟨"u1", "p1", none, "secret", "n", 0, UserStatus.pending, true, none⟩
      (by decide)).1, ?_⟩
  exact ((c2_approve ⟨[⟨"u1", "p1", none, "secret", "n", 0,
      UserStatus.pending, true, none⟩]⟩ "zz").1 (by decide)).1

/-- Claim C5 (confirmed, spec-modelled): the set-balance operation fails
with InvalidAmount (400) when the amount is absent or non-numeric, overwrites
the balance unconditionally when it is numeric, and fails with NotFound (404)
for an unknown account id. -/
theorem c5_set_balance (st : Store) (userId : String) :
    (∀ u, st.users.find? (fun x => x.id == userId) = some u →
      setBalance st userId none = (⟨400, false, "Invalid amount"⟩, st) ∧
      (∀ s, setBalance st userId (some (ReqValue.str s)) =
        (⟨400, false, "Invalid amount"⟩, st)) ∧
      (∀ q, setBalance st userId (some (ReqValue.num q)) =
        (⟨200, true, "Balance updated successfully"⟩,
         updateUser st { u with balance := q }))) ∧
    (st.users.find? (fun x => x.id == userId) = none →
      ∀ q, setBalance st userId (some (ReqValue.num q)) = (userNotFoundResp, st)) ∧
    userNotFoundResp.statusCode = 404 := by
  refine ⟨?_, ?_, rfl⟩
  · intro u hu
    refine ⟨rfl, fun s => rfl, fun q => ?_⟩
    unfold setBalance
    rw [hu]
  · intro h q
    unfold setBalance
    rw [h]

/-- Claim C5, witness: on a concrete store, a missing amount gives 400, a
numeric amount overwrites the balance, and an unknown id gives 404. -/
theorem c5_set_balance_witness :
    setBalance ⟨[⟨"u1", "p1", none, "secret", "n", 0,
        UserStatus.approved, true, none⟩]⟩ "u1" none =
      (⟨400, false, "Invalid amount"⟩,
       ⟨[⟨"u1", "p1", none, "secret", "n", 0,
          UserStatus.approved, true, none⟩]⟩) ∧
    setBalance ⟨[⟨"u1", "p1", none, "secret", "n", 0,
        UserStatus.approved, true, none⟩]⟩ "zz" (some (ReqValue.num 20)) =
      (userNotFoundResp,
       ⟨[⟨"u1", "p1", none, "secret", "n", 0,
          UserStatus.approved, true, none⟩]⟩) := by
  refine ⟨((c5_set_balance ⟨[⟨"u1", "p1", none, "secret", "n", 0,
      UserStatus.approved, true, none⟩]⟩ "u1").1
      ⟨"u1", "p1", none, "secret", "n", 0, UserStatus.approved, true, none⟩
      (by decide)).1, ?_⟩
  exact (c5_set_balance ⟨[⟨"u1", "p1", none, "secret", "n", 0,
      UserStatus.approved, true, none⟩]⟩ "zz").2.1 (by decide) 20

/-- Claim C6 (confirmed): on a request that passed the admin-token
middleware, deletion goes through only for a `super_admin` role: an
`admin`-role caller gets Forbidden (403) with the store unchanged, any
change to the store implies the caller was a `super_admin`, and a
`super_admin` caller removes the targeted record. -/
theorem c6_delete_super_admin_only
    (admins : List Admin) (tok : Option TokenVerification) (st : Store)
    (userId : String) (a : Admin)
    (hauth : verifyAdminToken admins tok = AuthOutcome.authorized a) :
    (a.role = AdminRole.admin →
      withAdminAuth admins tok (fun ad s => deleteUser ad s userId) st =
        (⟨403, false, "Only super admins can delete users"⟩, st)) ∧
    ((withAdminAuth admins tok (fun ad s => deleteUser ad s userId) st).2 ≠ st →
      a.role = AdminRole.super_admin) ∧
    (a.role = AdminRole.super_admin →
      ∀ u, st.users.find? (fun x => x.id == userId) = some u →
        (withAdminAuth admins tok (fun ad s => deleteUser ad s userId) st) =
          (⟨200, true, "User deleted successfully"⟩,
           ⟨st.users.eraseP (fun x => x.id == userId)⟩)) := by
  have hw : withAdminAuth admins tok (fun ad s => deleteUser ad s userId) st =
      deleteUser a st userId := by
    unfold withAdminAuth
    rw [hauth]
  rw [hw]
  refine ⟨?_, ?_, ?_⟩
  · intro hrole
    unfold deleteUser
    rw [if_pos (by rw [hrole]; decide)]
  · intro hne
    cases hrole : a.role with
    | admin =>
        exfalso
        apply hne
        unfold deleteUser
        rw [if_pos (by rw [hrole]; decide)]
    | super_admin => rfl
  · intro hrole u hu
    unfold deleteUser
    rw [if_neg (by rw [hrole]; decide), hu]

/-- Claim C6, witness: an admin-role caller is refused with 403 and the
account remains; a super-admin caller removes it. -/
theorem c6_delete_super_admin_only_witness :
    withAdminAuth [⟨"a1", "adm", "a@x", "pw", AdminRole.admin, true⟩]
      (some (TokenVerification.ok ⟨"a1", true⟩))
      (fun ad s => deleteUser ad s "u1")
      ⟨[⟨"u1", "p1", none, "secret", "n", 0,
         UserStatus.approved, true, none⟩]⟩ =
      (⟨403, false, "Only super admins can delete users"⟩,
       ⟨[⟨"u1", "p1", none, "secret", "n", 0,
          UserStatus.approved, true, none⟩]⟩) := by
  exact (c6_delete_super_admin_only
    [⟨"a1", "adm", "a@x", "pw", AdminRole.admin, true⟩]
    (some (TokenVerification.ok ⟨"a1", true⟩))
    ⟨[⟨"u1", "p1", none, "secret", "n", 0, UserStatus.approved, true, none⟩]⟩
    "u1" ⟨"a1", "adm", "a@x", "pw", AdminRole.admin, true⟩
    (by decide)).1 rfl

/-- Claim C7 (confirmed): for every admin-gateway operation (any handler and
any store), a missing token or one failing verification (bad signature or
expired) is rejected with 401 before the handler runs — the store is
returned unchanged, whatever the handler — and a verified token without the
`isAdmin` privilege flag is rejected with 403, likewise before the handler. -/
theorem c7_admin_token_gate
    (admins : List Admin) (tok : Option TokenVerification) (st : Store)
    (handler : Admin → Store → AdminResult × Store) :
    ((tok = none ∨ tok = some TokenVerification.invalid) →
      verifyAdminToken admins tok =
        AuthOutcome.err 401 "Not authorized to access this route" ∧
      withAdminAuth admins tok handler st =
        (⟨401, false, "Not authorized to access this route"⟩, st)) ∧
    (∀ p, tok = some (TokenVerification.ok p) → p.isAdmin = false →
      verifyAdminToken admins tok =
        AuthOutcome.err 403 "Not authorized as admin" ∧
      withAdminAuth admins tok handler st =
        (⟨403, false, "Not authorized as admin"⟩, st)) := by
  constructor
  · rintro (rfl | rfl) <;> exact ⟨rfl, rfl⟩
  · rintro p rfl hadm
    have hv : verifyAdminToken admins (some (TokenVerification.ok p)) =
        AuthOutcome.err 403 "Not authorized as admin" := by
      simp [verifyAdminToken, hadm]
    refine ⟨hv, ?_⟩
    unfold withAdminAuth
    rw [hv]

/-- Claim C7, witness: with a concrete store and the approve handler, a
missing token yields 401 and a valid non-privileged token yields 403, both
leaving the store unchanged. -/
theorem c7_admin_token_gate_witness :
    withAdminAuth [] none (fun _ s => approveUser s "u1")
      ⟨[⟨"u1", "p1", none, "secret", "n", 0,
         UserStatus.pending, true, none⟩]⟩ =
      (⟨401, false, "Not authorized to access this route"⟩,
       ⟨[⟨"u1", "p1", none, "secret", "n", 0,
          UserStatus.pending, true, none⟩]⟩) ∧
    withAdminAuth [] (some (TokenVerification.ok ⟨"a1", false⟩))
      (fun _ s => approveUser s "u1")
      ⟨[⟨"u1", "p1", none, "secret", "n", 0,
         UserStatus.pending, true, none⟩]⟩ =
      (⟨403, false, "Not authorized as admin"⟩,
       ⟨[⟨"u1", "p1", none, "secret", "n", 0,
          UserStatus.pending, true, none⟩]⟩) := by
  refine ⟨((c7_admin_token_gate [] none
      ⟨[⟨"u1", "p1", none, "secret", "n", 0, UserStatus.pending, true, none⟩]⟩
      (fun _ s => approveUser s "u1")).1 (Or.inl rfl)).2, ?_⟩
  exact ((c7_admin_token_gate [] (some (TokenVerification.ok ⟨"a1", false⟩))
      ⟨[⟨"u1", "p1", none, "secret", "n", 0, UserStatus.pending, true, none⟩]⟩
      (fun _ s => approveUser s "u1")).2 ⟨"a1", false⟩ rfl rfl).2

/-- Claim C9 (confirmed): a validly verified token carrying the privilege
flag authorizes the request only if the admin record it references exists
and is active at that moment; a missing or inactive admin record yields 401
— so deleting or deactivating an admin invalidates all of that admin's
outstanding tokens with no revocation list. -/
theorem c9_admin_liveness (admins : List Admin) (p : TokenPayload)
    (hadm : p.isAdmin = true) :
    (∀ a, admins.find? (fun x => x.id == p.id) = some a →
      (a.isActive = true →
        verifyAdminToken admins (some (TokenVerification.ok p)) =
          AuthOutcome.authorized a) ∧
      (a.isActive = false →
        verifyAdminToken admins (some (TokenVerification.ok p)) =
          AuthOutcome.err 401 "Admin account not found or inactive")) ∧
    (admins.find? (fun x => x.id == p.id) = none →
      verifyAdminToken admins (some (TokenVerification.ok p)) =
        AuthOutcome.err 401 "Admin account not found or inactive") := by
  have hno : ¬ (p.isAdmin = false) := by simp [hadm]
  constructor
  · intro a ha
    constructor
    · intro hact
      simp [verifyAdminToken, hadm, ha, hact]
    · intro hact
      simp [verifyAdminToken, hadm, ha, hact]
  · intro hnone
    simp [verifyAdminToken, hadm, hnone]

/-- Claim C9, witness: the same privileged token is authorized while its
admin record is active and rejected with 401 once that record is
deactivated or deleted. -/
theorem c9_admin_liveness_witness :
    verifyAdminToken [⟨"a1", "adm", "a@x", "pw", AdminRole.admin, true⟩]
      (some (TokenVerification.ok ⟨"a1", true⟩)) =
      AuthOutcome.authorized ⟨"a1", "adm", "a@x", "pw", AdminRole.admin, true⟩ ∧
    verifyAdminToken [⟨"a1", "adm", "a@x", "pw", AdminRole.admin, false⟩]
      (some (TokenVerification.ok ⟨"a1", true⟩)) =
      AuthOutcome.err 401 "Admin account not found or inactive" ∧
    verifyAdminToken [] (some (TokenVerification.ok ⟨"a1", true⟩)) =
      AuthOutcome.err 401 "Admin account not found or inactive" := by
  refine ⟨((c9_admin_liveness [⟨"a1", "adm", "a@x", "pw", AdminRole.admin, true⟩]
      ⟨"a1", true⟩ rfl).1
      ⟨"a1", "adm", "a@x", "pw", AdminRole.admin, true⟩ (by decide)).1 rfl, ?_, ?_⟩
  · exact ((c9_admin_liveness [⟨"a1", "adm", "a@x", "pw", AdminRole.admin, false⟩]
      ⟨"a1", true⟩ rfl).1
      ⟨"a1", "adm", "a@x", "pw", AdminRole.admin, false⟩ (by decide)).2 rfl
  · exact (c9_admin_liveness [] ⟨"a1", true⟩ rfl).2 rfl

/-- Helper: a non-demo login that reports success resolved some account and
returned the normal success response with the lastLogin update. -/
theorem login_success_shape (now : Nat) (st : Store) (settings : List Setting)
    (env : Env) (identifier password : String)
    (hdemo : isDemoPair identifier password = false)
    (hsucc : (login now st settings env identifier password).1.success = true) :
    ∃ u, findUserByIdentifier st identifier = some u ∧
      login now st settings env identifier password =
        (successLoginResp settings env u,
         updateUser st { u with lastLogin := some now }) := by
  unfold login at hsucc ⊢
  by_cases h1 : identifier = ""
  · rw [if_pos h1] at hsucc
    simp [identifierRequiredResp] at hsucc
  rw [if_neg h1] at hsucc ⊢
  by_cases h2 : password = ""
  · rw [if_pos h2] at hsucc
    simp [passwordRequiredResp] at hsucc
  rw [if_neg h2] at hsucc ⊢
  rw [if_neg (by simp [hdemo])] at hsucc ⊢
  cases hfind : findUserByIdentifier st identifier with
  | none =>
      rw [hfind] at hsucc
      simp [invalidCredsResp] at hsucc
  | some u =>
      rw [hfind] at hsucc
      refine ⟨u, rfl, ?_⟩
      show gateUser now st settings env password u = _
      have hsucc' : (gateUser now st settings env password u).1.success = true := hsucc
      unfold gateUser at hsucc' ⊢
      by_cases hcp : comparePassword u password = true
      · rw [if_pos hcp] at hsucc' ⊢
        by_cases hp : u.status = UserStatus.pending
        · rw [if_pos hp] at hsucc'
          simp [pendingResp] at hsucc'
        rw [if_neg hp] at hsucc' ⊢
        by_cases hr : u.status = UserStatus.rejected
        · rw [if_pos hr] at hsucc'
          simp [rejectedResp] at hsucc'
        rw [if_neg hr] at hsucc' ⊢
        by_cases ha : u.isActive = false
        · rw [if_pos ha] at hsucc'
          simp [deactivatedResp] at hsucc'
        rw [if_neg ha]
      · rw [if_neg hcp] at hsucc'
        simp [invalidCredsResp] at hsucc'

/-- Claim C10 (confirmed): the demo login response reports status `demo` — a
value the status serialization of persisted accounts never produces — a
fixed synthetic balance of 1250.00, `isDemo = true`, `showGames = true` and
no webViewUrl field, whereas every non-demo successful login response has
`isDemo = false`, `showGames = false` and carries a webViewUrl. -/
theorem c10_demo_vs_normal_shape (now : Nat) (st : Store)
    (settings : List Setting) (env : Env) (identifier password : String)
    (hdemo : isDemoPair identifier password = false)
    (hsucc : (login now st settings env identifier password).1.success = true) :
    demoLoginResp.isDemo = some true ∧
    demoLoginResp.showGames = some true ∧
    demoLoginResp.webViewUrl = none ∧
    demoLoginResp.user.map (fun v => v.status) = some "demo" ∧
    demoLoginResp.user.map (fun v => v.balance) = some (1250 : Rat) ∧
    (∀ s : UserStatus, statusString s ≠ "demo") ∧
    (login now st settings env identifier password).1.isDemo = some false ∧
    (login now st settings env identifier password).1.showGames = some false ∧
    (login now st settings env identifier password).1.webViewUrl =
      some (getWebViewUrl settings env) := by
  obtain ⟨u, hfind, heq⟩ :=
    login_success_shape now st settings env identifier password hdemo hsucc
  refine ⟨rfl, rfl, rfl, rfl, rfl, ?_, ?_, ?_, ?_⟩
  · intro s
    cases s <;> decide
  · rw [heq]
    rfl
  · rw [heq]
    rfl
  · rw [heq]
    rfl

/-- Claim C10, witness: a concrete approved, active account logs in with a
response carrying `isDemo = false`, `showGames = false` and a webViewUrl. -/
theorem c10_demo_vs_normal_shape_witness :
    (login 0 ⟨[⟨"u1", "555", none, "abcdef", "n", 0,
        UserStatus.approved, true, none⟩]⟩ [] ⟨none, none⟩
      "555" "abcdef").1.isDemo = some false ∧
    (login 0 ⟨[⟨"u1", "555", none, "abcdef", "n", 0,
        UserStatus.approved, true, none⟩]⟩ [] ⟨none, none⟩
      "555" "abcdef").1.webViewUrl = some (getWebViewUrl [] ⟨none, none⟩) := by
  refine ⟨(c10_demo_vs_normal_shape 0
    ⟨[⟨"u1", "555", none, "abcdef", "n", 0, UserStatus.approved, true, none⟩]⟩
    [] ⟨none, none⟩ "555" "abcdef" (by decide) (by decide)).2.2.2.2.2.2.1, ?_⟩
  exact (c10_demo_vs_normal_shape 0
    ⟨[⟨"u1", "555", none, "abcdef", "n", 0, UserStatus.approved, true, none⟩]⟩
    [] ⟨none, none⟩ "555" "abcdef" (by decide) (by decide)).2.2.2.2.2.2.2.2

/-- Claim C8 (confirmed): a signup with a non-empty phone, a password of
length at least 6 (and, when an email is supplied, one passing the format
validator) succeeds with 201 and appends a `pending` account when no
existing account shares the phone nor, when an email is supplied, the
lower-cased email; and any such signup reusing an existing phone fails with
the duplicate-identity 400 response and leaves the store unchanged. -/
theorem c8_signup (st : Store) (freshId : String) (req : SignupReq)
    (hphone : req.phone ≠ "")
    (hpw : 6 ≤ req.password.length)
    (hemail : ∀ e, req.email = some e → isEmailFormat e = true) :
    ((∀ u ∈ st.users, u.phone ≠ req.phone) →
      (∀ e, req.email = some e → ∀ u ∈ st.users, u.email ≠ some (lowerString e)) →
      (signup st freshId req).1.statusCode = 201 ∧
      (signup st freshId req).1.success = true ∧
      (signup st freshId req).1.data.map (fun d => d.status) = some "pending" ∧
      ∃ nu : User, (signup st freshId req).2.users = st.users ++ [nu] ∧
        nu.status = UserStatus.pending ∧ nu.phone = req.phone) ∧
    ((∃ u ∈ st.users, u.phone = req.phone) →
      signup st freshId req = (phoneDupResp, st) ∧
      phoneDupResp.statusCode = 400) := by
  have hc1 : ¬ (req.phone = "") := hphone
  have hc2 : ¬ (req.password.length < 6) := not_lt.mpr hpw
  have hc3 : ¬ (emailFormatFails req.email = true) := by
    unfold emailFormatFails
    cases he : req.email with
    | none => simp
    | some e => simp [hemail e he]
  constructor
  · intro hnophone hnoemail
    have hfp : st.users.find? (fun u => u.phone == req.phone) = none :=
      List.find?_eq_none.mpr (by
        intro x hx
        simp [hnophone x hx])
    have hfe : emailDupExists st req.email = false := by
      unfold emailDupExists
      cases he : req.email with
      | none => rfl
      | some e =>
          have hn : st.users.find? (fun u => u.email == some (lowerString e)) = none :=
            List.find?_eq_none.mpr (by
              intro x hx
              simp [hnoemail e he x hx])
          simp [hn]
    refine ⟨?_, ?_, ?_, ?_⟩
    · unfold signup
      rw [if_neg hc1, if_neg hc2, if_neg hc3, if_neg (by simp [hfp]),
        if_neg (by simp [hfe])]
    · unfold signup
      rw [if_neg hc1, if_neg hc2, if_neg hc3, if_neg (by simp [hfp]),
        if_neg (by simp [hfe])]
    · unfold signup
      rw [if_neg hc1, if_neg hc2, if_neg hc3, if_neg (by simp [hfp]),
        if_neg (by simp [hfe])]
      rfl
    · unfold signup
      rw [if_neg hc1, if_neg hc2, if_neg hc3, if_neg (by simp [hfp]),
        if_neg (by simp [hfe])]
      exact ⟨_, rfl, rfl, rfl⟩
  · intro hdup
    have hfp : (st.users.find? (fun u => u.phone == req.phone)).isSome = true := by
      rw [List.find?_isSome]
      obtain ⟨u, hu, he⟩ := hdup
      exact ⟨u, hu, by simp [he]⟩
    refine ⟨?_, rfl⟩
    unfold signup
    rw [if_neg hc1, if_neg hc2, if_neg hc3, if_pos hfp]

/-- Claim C8, witness: a concrete first signup succeeds with a pending
account; a second signup with the same phone fails with the duplicate
response and leaves the store as it was. -/
theorem c8_signup_witness :
    (signup ⟨[]⟩ "u1" ⟨"555", none, "abcdef", none⟩).1.statusCode = 201 ∧
    (signup ⟨[]⟩ "u1" ⟨"555", none, "abcdef", none⟩).1.data.map
      (fun d => d.status) = some "pending" ∧
    signup (signup ⟨[]⟩ "u1" ⟨"555", none, "abcdef", none⟩).2 "u2"
        ⟨"555", none, "ghijkl", none⟩ =
      (phoneDupResp, (signup ⟨[]⟩ "u1" ⟨"555", none, "abcdef", none⟩).2) := by
  refine ⟨((c8_signup ⟨[]⟩ "u1" ⟨"555", none, "abcdef", none⟩ (by decide)
      (by decide) (fun e he => Option.noConfusion he)).1
      (by intro u hu; cases hu) (fun e he => Option.noConfusion he)).1,
    ((c8_signup ⟨[]⟩ "u1" ⟨"555", none, "abcdef", none⟩ (by decide)
      (by decide) (fun e he => Option.noConfusion he)).1
      (by intro u hu; cases hu) (fun e he => Option.noConfusion he)).2.2.1, ?_⟩
  exact ((c8_signup (signup ⟨[]⟩ "u1" ⟨"555", none, "abcdef", none⟩).2 "u2"
      ⟨"555", none, "ghijkl", none⟩ (by decide) (by decide)
      (fun e he => Option.noConfusion he)).2 (by decide)).1
